import Mathlib

/-!
Verification development for a small HTTP media-relay service.

The service validates a media URL against a fixed list of platform
regular expressions, probes a title, spawns a downloader process and a
transcoder process, pipes one into the other and streams the result back.
This file gives a shallow embedding of its pure components (URL
classifier, format selector, filename sanitizer), of the request
validation / effect sequence of the download handler, of the HTTP
router, and of the abort-handling lifecycle, and proves the stated
properties about them.
-/

namespace Social

/-! ### Regular expressions

The source patterns use only: literal strings, single-character classes,
alternation of groups, optional groups, and `+` applied to a character
class.  `Re` captures exactly those shapes; all source patterns are
anchored with `^`, so matching means: some prefix of the input is in the
language.  `matchEnds r s` returns the list of suffixes of `s` that
remain after a prefix matching `r`. -/

inductive Re where
  | eps : Re
  | str : List Char → Re
  | cls : (Char → Bool) → Re
  | cat : Re → Re → Re
  | alt : Re → Re → Re
  | opt : Re → Re
  | plus : (Char → Bool) → Re

/-- Predicate `startsL l s`: the list `l` is a prefix of `s`. -/
def startsL : List Char → List Char → Bool
  | [], _ => true
  | _ :: _, [] => false
  | a :: as, b :: bs => a = b && startsL as bs

/-- Suffixes remaining after consuming one-or-more characters of class `p`. -/
def plusEnds (p : Char → Bool) : List Char → List (List Char)
  | [] => []
  | c :: cs => if p c then cs :: plusEnds p cs else []

/-- All suffixes of `s` remaining after a prefix of `s` matching `r`. -/
def matchEnds : Re → List Char → List (List Char)
  | .eps, s => [s]
  | .str l, s => if startsL l s then [s.drop l.length] else []
  | .cls _, [] => []
  | .cls p, c :: cs => if p c then [cs] else []
  | .cat a b, s => (matchEnds a s).flatMap (matchEnds b)
  | .alt a b, s => matchEnds a s ++ matchEnds b s
  | .opt a, s => s :: matchEnds a s
  | .plus p, s => plusEnds p s

/-- JS `RegExp.test` for a `^`-anchored pattern: some prefix matches. -/
def reTest (r : Re) (s : String) : Bool := !(matchEnds r s.data).isEmpty

/-- Sequence a list of regexes. -/
def reSeq (l : List Re) : Re := l.foldr Re.cat Re.eps

def litS (s : String) : Re := Re.str s.data

/-- JS `\w` : ASCII word character. -/
def wordChar (c : Char) : Bool := c.isAlphanum || c = '_'

/-- JS `\d`. -/
def digitChar (c : Char) : Bool := c.isDigit

/-- JS `.` (no `s` flag): any character except line terminators. -/
def dotChar (c : Char) : Bool :=
  !(c = '\n' || c = '\r' || c = (Char.ofNat 0x2028) || c = (Char.ofNat 0x2029))

/-- Class `[\w.]`. -/
def wordDotChar (c : Char) : Bool := wordChar c || c = '.'

/-- Class `[\w-]`. -/
def wordDashChar (c : Char) : Bool := wordChar c || c = '-'

/-- The common anchor `^https?:\/\/` of every platform pattern. -/
def reHttp (body : Re) : Re :=
  reSeq [litS "http", Re.opt (litS "s"), litS "://", body]

/-- Group `(www\.)?`. -/
def optWww : Re := Re.opt (litS "www.")

/-! ### Platform configuration (from `SUPPORTED_PLATFORMS`) -/

structure PlatformConfig where
  name : String
  pattern : Re
  icon : String

def SUPPORTED_PLATFORMS : List PlatformConfig :=
  [ { name := "Twitter/X"
      pattern := reHttp (reSeq [optWww,
        Re.alt (litS "x.com") (litS "twitter.com"),
        litS "/", Re.plus dotChar, litS "/status/", Re.plus digitChar])
      icon := "🐦" },
    { name := "Instagram"
      pattern := reHttp (reSeq [optWww, litS "instagram.com/",
        Re.alt (litS "p") (Re.alt (litS "reel") (litS "tv")),
        litS "/", Re.plus wordDashChar])
      icon := "📷" },
    { name := "YouTube"
      pattern := reHttp (reSeq [optWww,
        Re.alt (litS "youtube.com/watch?v=") (litS "youtu.be/"),
        Re.plus wordDashChar])
      icon := "▶️" },
    { name := "Reddit"
      pattern := reHttp (reSeq [optWww, litS "reddit.com/r/",
        Re.plus wordChar, litS "/comments/", Re.plus wordChar])
      icon := "🤖" },
    { name := "TikTok"
      pattern := reHttp (reSeq [optWww,
        Re.alt (reSeq [litS "tiktok.com/@", Re.plus wordDotChar,
                       litS "/video/", Re.plus digitChar])
               (reSeq [litS "vm.tiktok.com/", Re.plus wordChar])])
      icon := "🎵" },
    { name := "Facebook"
      pattern := reHttp (reSeq [optWww,
        Re.alt (litS "facebook.com") (litS "fb.watch"),
        litS "/",
        Re.alt (reSeq [litS "watch", Re.opt (litS "/"), litS "?v=",
                       Re.plus digitChar])
               (reSeq [Re.plus wordDotChar, litS "/videos/",
                       Re.plus digitChar])])
      icon := "👤" },
    { name := "Vimeo"
      pattern := reHttp (reSeq [optWww, litS "vimeo.com/", Re.plus digitChar])
      icon := "🎬" },
    { name := "Twitch Clips"
      pattern := reHttp (reSeq [optWww,
        Re.alt (reSeq [litS "clips.twitch.tv/", Re.plus wordChar])
               (reSeq [litS "twitch.tv/", Re.plus wordChar, litS "/clip/",
                       Re.plus wordChar])])
      icon := "🎮" },
    { name := "Pinterest"
      pattern := reHttp (reSeq [optWww, litS "pinterest.",
        Re.alt (litS "com") (Re.alt (litS "ca") (litS "co.uk")),
        litS "/pin/", Re.plus digitChar])
      icon := "📌" },
    { name := "Dailymotion"
      pattern := reHttp (reSeq [optWww, litS "dailymotion.com/video/",
        Re.plus wordChar])
      icon := "🎥" } ]

/-! ### URL classifier (`isValidUrl`) -/

structure UrlCheck where
  valid : Bool
  platform : Option String
  icon : Option String
  deriving DecidableEq, Repr

/-- The `for` loop of `isValidUrl`: first matching platform wins. -/
def findPlatform (url : String) : List PlatformConfig → UrlCheck
  | [] => { valid := false, platform := none, icon := none }
  | p :: rest =>
      if reTest p.pattern url then
        { valid := true, platform := some p.name, icon := some p.icon }
      else findPlatform url rest

def isValidUrl (url : String) : UrlCheck :=
  findPlatform url SUPPORTED_PLATFORMS

/-! ### Filename sanitizer (`sanitizeFilename`)

The source applies, in order: removal of the nine filesystem-unsafe
characters, collapsing of every whitespace run (`\s+`) to a single
underscore, replacement of every non-ASCII UTF-16 code unit by an
underscore (the replacement callback keeps a matched unit only when its
code is below 128, which never holds for a unit matched by
`[^\x00-\x7F]`; an astral character is two units, hence two
underscores), and truncation to the first 100 units. -/

/-- The class `[\/\\:*?"<>|]` removed by the sanitizer. -/
def isForbidden (c : Char) : Bool :=
  c = '/' || c = '\\' || c = ':' || c = '*' || c = '?' ||
  c = '"' || c = '<' || c = '>' || c = '|'

/-- JS `\s`: WhiteSpace and LineTerminator code points. -/
def isJsSpace (c : Char) : Bool :=
  c = '\t' || c = '\n' || c = (Char.ofNat 0xB) || c = (Char.ofNat 0xC) ||
  c = '\r' || c = ' ' || c = (Char.ofNat 0xA0) || c = (Char.ofNat 0x1680) ||
  (0x2000 ≤ c.toNat && c.toNat ≤ 0x200A) || c = (Char.ofNat 0x2028) ||
  c = (Char.ofNat 0x2029) || c = (Char.ofNat 0x202F) ||
  c = (Char.ofNat 0x205F) || c = (Char.ofNat 0x3000) ||
  c = (Char.ofNat 0xFEFF)

/-- Step `.replace(/[\/\\:*?"<>|]/g, "")`. -/
def removeForbidden (l : List Char) : List Char :=
  l.filter (fun c => !isForbidden c)

/-- One pass of `.replace(/\s+/g, "_")`: emit a single underscore at
the start of each maximal whitespace run (`inRun` records whether the
previous character was part of a run already replaced). -/
def collapseAux (inRun : Bool) : List Char → List Char
  | [] => []
  | c :: cs =>
      if isJsSpace c then
        if inRun then collapseAux true cs else '_' :: collapseAux true cs
      else c :: collapseAux false cs

/-- Step `.replace(/\s+/g, "_")`. -/
def collapseSpaces (l : List Char) : List Char := collapseAux false l

/-- Step `.replace(/[^\x00-\x7F]/g, ...)`: per UTF-16 code unit, a unit with
code at least 128 becomes `_`; an astral scalar is two units. -/
def asciiReplace (l : List Char) : List Char :=
  l.flatMap (fun c =>
    if c.toNat < 128 then [c]
    else if c.toNat ≤ 0xFFFF then ['_'] else ['_', '_'])

def sanitizeFilename (s : String) : String :=
  ⟨(asciiReplace (collapseSpaces (removeForbidden s.data))).take 100⟩

/-! ### Format selector (`getYtDlpFormat`) and extension -/

/-- The `String.includes` of JS, on character lists. -/
def containsL (needle : List Char) : List Char → Bool
  | [] => startsL needle []
  | c :: cs => startsL needle (c :: cs) || containsL needle cs

def containsS (needle s : String) : Bool := containsL needle.data s.data

def getYtDlpFormat (quality : String) (platform : Option String) : String :=
  if (platform.map (fun p => containsS "YouTube" p)).getD false then
    if quality = "audio" then "bestaudio[ext=m4a]/bestaudio"
    else if quality = "720" then
      "bestvideo[height<=720][ext=mp4]+bestaudio[ext=m4a]/best[height<=720]"
    else if quality = "1080" then
      "bestvideo[height<=1080][ext=mp4]+bestaudio[ext=m4a]/best[height<=1080]"
    else if quality = "4k" || quality = "2160" then
      "bestvideo[height<=2160][ext=mp4]+bestaudio[ext=m4a]/best[height<=2160]"
    else "bestvideo[ext=mp4]+bestaudio[ext=m4a]/best[ext=mp4]/best"
  else
    if quality = "audio" then "bestaudio/best"
    else if quality = "720" then "bv*[height<=720]+ba/b[height<=720]/b"
    else if quality = "1080" then "bv*[height<=1080]+ba/b[height<=1080]/b"
    else if quality = "4k" || quality = "2160" then
      "bv*[height<=2160]+ba/b[height<=2160]/b"
    else "bv*+ba/b"

def getFileExtension (quality : String) : String :=
  if quality = "audio" then "m4a" else "mp4"

/-! ### Download handler (`streamVideo`)

Modelled as a pure function of the request parameters and an
environment describing the external world for this request: the raw
output of the title probe (`none` when reading it throws) and which
`Bun.spawn` call, if any, throws (caught by the surrounding `try`,
yielding a 500).  Alongside the response we return the list of commands
spawned, in order. -/

inductive Json where
  | str : String → Json
  | num : Nat → Json
  | arr : List Json → Json
  | obj : List (String × Json) → Json

inductive Body where
  | json : Json → Body
  | stream : (contentType : String) → (filename : String) → Body

structure Resp where
  status : Nat
  body : Body

structure Env where
  probeRaw : Option String
  failAt : Option Nat
  errMessage : String

/-- The `rawTitle.trim()` call with the JS whitespace class. -/
def jsTrim (s : String) : String :=
  ⟨((s.data.dropWhile isJsSpace).reverse.dropWhile isJsSpace).reverse⟩

def probeCmd (url : String) : List String :=
  ["yt-dlp", "--print", "title", url]

def ytdlpCmd (format url : String) : List String :=
  ["yt-dlp", "-f", format, "-o", "-", url]

def ffmpegCmdOf (isAudioOnly : Bool) : List String :=
  if isAudioOnly then
    ["ffmpeg", "-loglevel", "error", "-i", "pipe:0", "-c:a", "aac",
     "-b:a", "192k", "-f", "ipod", "pipe:1"]
  else
    ["ffmpeg", "-loglevel", "error", "-i", "pipe:0", "-c:v", "copy",
     "-c:a", "aac", "-movflags", "frag_keyframe+empty_moov", "-f", "mp4",
     "pipe:1"]

/-- The title computation: the probe output is trimmed and an empty or
failed result falls back to `"video"` (`rawTitle.trim() || "video"`). -/
def titleOf (probeRaw : Option String) : String :=
  match probeRaw with
  | none => "video"
  | some raw => let t := jsTrim raw; if t = "" then "video" else t

def resp500 (env : Env) : Resp :=
  ⟨500, .json (.obj [("error", .str "Failed to download video"),
                     ("message", .str env.errMessage)])⟩

def streamVideo (env : Env) (urlParam qualityParam : Option String) :
    Resp × List (List String) :=
  let quality :=
    match qualityParam with
    | none => "best"
    | some q => if q = "" then "best" else q
  match urlParam with
  | none =>
      (⟨400, .json (.obj [("error", .str "Missing url parameter")])⟩, [])
  | some url =>
      -- `if (!url)`: the JS falsy check also catches the empty string.
      if url = "" then
        (⟨400, .json (.obj [("error", .str "Missing url parameter")])⟩, [])
      else
      let v := isValidUrl url
      if v.valid = false then
        (⟨400, .json (.obj
          [("error", .str "Unsupported URL"),
           ("message",
            .str "Please provide a valid URL from supported platforms"),
           ("supported",
            .arr (SUPPORTED_PLATFORMS.map (fun p => .str p.name)))])⟩, [])
      else if env.failAt = some 0 then (resp500 env, [])
      else
        let title := titleOf env.probeRaw
        let safeTitle := sanitizeFilename title
        let ext := getFileExtension quality
        let filename := safeTitle ++ "." ++ ext
        let format := getYtDlpFormat quality v.platform
        if env.failAt = some 1 then (resp500 env, [probeCmd url])
        else
          let isAudioOnly := quality = "audio"
          if env.failAt = some 2 then
            (resp500 env, [probeCmd url, ytdlpCmd format url])
          else
            (⟨200, .stream (if isAudioOnly then "audio/mp4" else "video/mp4")
                           filename⟩,
             [probeCmd url, ytdlpCmd format url, ffmpegCmdOf isAudioOnly])

/-! ### HTTP router (`fetch` in the backend entry point) -/

def getSupportedPlatforms : List (String × String) :=
  SUPPORTED_PLATFORMS.map (fun p => (p.name, p.icon))

inductive FetchResult where
  | page
  | platformsJson : List (String × String) → FetchResult
  | download : Resp × List (List String) → FetchResult
  | health
  | notFound

def fetchRoute (env : Env) (pathname : String)
    (urlParam qualityParam : Option String) : FetchResult :=
  if pathname = "/" then .page
  else if pathname = "/api/platforms" then .platformsJson getSupportedPlatforms
  else if pathname = "/api/download" then
    .download (streamVideo env urlParam qualityParam)
  else if pathname = "/twitter/stream" then
    .download (streamVideo env urlParam qualityParam)
  else if pathname = "/health" then .health
  else .notFound

/-! ### Request lifecycle and abort handling

One instance per request.  In the source, the downloader spawn, the
transcoder spawn and the registration of the abort listener happen in
one synchronous block (no `await` between them), so under the
single-threaded event-loop execution model no abort event can be
dispatched between those three statements: they form one atomic step.
The abort listener body runs synchronously and kills both processes;
the relay loop's `catch` likewise kills both on a relay failure. -/

structure LifeState where
  procsSpawned : Bool
  listenerOn : Bool
  abortHandled : Bool
  relayDone : Bool
  ytdlpKilled : Bool
  ffmpegKilled : Bool

def initLife : LifeState :=
  { procsSpawned := false, listenerOn := false, abortHandled := false
    relayDone := false, ytdlpKilled := false, ffmpegKilled := false }

inductive LifeStep : LifeState → LifeState → Prop
  /-- Lines 180–249: spawn downloader, spawn transcoder, start the relay
  task, register the abort listener — one synchronous block. -/
  | spawnRegister (s : LifeState) (h : s.procsSpawned = false) :
      LifeStep s { s with procsSpawned := true, listenerOn := true }
  /-- One turn of the relay loop; changes nothing observable here. -/
  | relayChunk (s : LifeState) (h : s.procsSpawned = true) : LifeStep s s
  /-- The downloader's output is exhausted; the transcoder input is closed. -/
  | relayEnd (s : LifeState) (h : s.procsSpawned = true) :
      LifeStep s { s with relayDone := true }
  /-- A read or write error in the relay loop kills both processes. -/
  | relayFail (s : LifeState) (h : s.procsSpawned = true) :
      LifeStep s { s with ytdlpKilled := true, ffmpegKilled := true }
  /-- The abort event is dispatched to the registered listener, whose
  body synchronously kills both processes. -/
  | abortEvt (s : LifeState) (h : s.listenerOn = true) :
      LifeStep s { s with abortHandled := true,
                          ytdlpKilled := true, ffmpegKilled := true }

def LifeReachable (s : LifeState) : Prop :=
  Relation.ReflTransGen LifeStep initLife s

/-! ## Helper lemmas -/

theorem startsL_iff (l s : List Char) :
    startsL l s = true ↔ s.take l.length = l := by
  induction l generalizing s with
  | nil => simp [startsL]
  | cons a as ih =>
      cases s with
      | nil => simp [startsL]
      | cons b bs =>
          simp only [startsL, List.length_cons, List.take_succ_cons,
            Bool.and_eq_true, decide_eq_true_eq, List.cons.injEq, ih]
          tauto

theorem findPlatform_of_all_false (url : String) (l : List PlatformConfig)
    (h : ∀ p ∈ l, reTest p.pattern url = false) :
    findPlatform url l = { valid := false, platform := none, icon := none } := by
  induction l with
  | nil => rfl
  | cons p rest ih =>
      have hp : reTest p.pattern url = false := h p (by simp)
      simp only [findPlatform, hp, Bool.false_eq_true, if_false]
      exact ih (fun q hq => h q (List.mem_cons_of_mem _ hq))

theorem findPlatform_first (url : String) (l : List PlatformConfig) :
    ∀ i, (hi : i < l.length) →
    reTest (l.get ⟨i, hi⟩).pattern url = true →
    (∀ j, (hj : j < i) → reTest (l.get ⟨j, by omega⟩).pattern url = false) →
    findPlatform url l =
      { valid := true, platform := some (l.get ⟨i, hi⟩).name,
        icon := some (l.get ⟨i, hi⟩).icon } := by
  induction l with
  | nil => intro i hi; simp at hi
  | cons p rest ih =>
      intro i hi hm hprev
      cases i with
      | zero =>
          simp only [List.get] at hm ⊢
          simp [findPlatform, hm]
      | succ j =>
          have hp0 : reTest p.pattern url = false := hprev 0 (Nat.succ_pos j)
          simp only [findPlatform, hp0, Bool.false_eq_true, if_false]
          exact ih j (by simpa using hi) (by simpa using hm)
            (fun k hk => hprev (k + 1) (by omega))

theorem all_not_iff (url : String) (l : List PlatformConfig) :
    l.all (fun p => !reTest p.pattern url) = true ↔
      ∀ p ∈ l, reTest p.pattern url = false := by
  simp [List.all_eq_true]

theorem startsL_append (a b s : List Char) :
    startsL (a ++ b) s = (startsL a s && startsL b (s.drop a.length)) := by
  induction a generalizing s with
  | nil => simp [startsL]
  | cons x xs ih =>
      cases s with
      | nil => simp [startsL]
      | cons y ys => simp [startsL, ih, Bool.and_assoc]

theorem reHttp_anchored (b : Re) (s : List Char)
    (h : matchEnds (reHttp b) s ≠ []) :
    startsL ("http://".data) s = true ∨ startsL ("https://".data) s = true := by
  by_cases h1 : startsL ("http".data) s = true
  · by_cases h3 : startsL ("://".data) (s.drop 4) = true
    · left
      have e : ("http://".data) = "http".data ++ "://".data := by decide
      have e4 : ("http".data).length = 4 := by decide
      rw [e, startsL_append, e4]
      simp [h1, h3]
    · by_cases h2 : startsL ("s".data) (s.drop 4) = true
      · by_cases h4 : startsL ("://".data) (s.drop 5) = true
        · right
          have e : ("https://".data) = "http".data ++ ("s".data ++ "://".data) := by
            decide
          rw [e, startsL_append, startsL_append]
          simp [h1, h2, h4, List.drop_drop]
        · exfalso
          apply h
          simp [reHttp, reSeq, litS, matchEnds, h1, h2, h3, h4]
      · exfalso
        apply h
        simp [reHttp, reSeq, litS, matchEnds, h1, h2, h3]
  · exfalso
    apply h
    simp [reHttp, reSeq, litS, matchEnds, h1]

theorem platform_patterns_anchored :
    ∀ p ∈ SUPPORTED_PLATFORMS, ∃ b, p.pattern = reHttp b := by
  intro p hp
  fin_cases hp <;> exact ⟨_, rfl⟩

/-! ## Claims -/

/-- C3: the URL classifier tests the platform patterns in list order and
returns the first matching platform's name (and icon); when no pattern
matches it returns the invalid (not supported) result. -/
theorem C3_classifier_first_match (url : String) :
    (SUPPORTED_PLATFORMS.all (fun p => !reTest p.pattern url) = true →
      isValidUrl url = { valid := false, platform := none, icon := none }) ∧
    (∀ i, (hi : i < SUPPORTED_PLATFORMS.length) →
      reTest (SUPPORTED_PLATFORMS.get ⟨i, hi⟩).pattern url = true →
      (SUPPORTED_PLATFORMS.take i).all (fun p => !reTest p.pattern url) = true →
      isValidUrl url =
        { valid := true,
          platform := some (SUPPORTED_PLATFORMS.get ⟨i, hi⟩).name,
          icon := some (SUPPORTED_PLATFORMS.get ⟨i, hi⟩).icon }) := by
  constructor
  · intro h
    exact findPlatform_of_all_false url _ ((all_not_iff url _).mp h)
  · intro i hi hm hp
    refine findPlatform_first url _ i hi hm (fun j hj => ?_)
    have := (all_not_iff url _).mp hp
    exact this _ (by
      refine List.mem_take_iff_getElem.mpr ⟨j, by omega, ?_⟩
      simp [List.get_eq_getElem])

/-- Witness for C3: a URL matched by the third pattern (YouTube) and a
URL matched by none. -/
theorem C3_classifier_first_match_witness :
    isValidUrl "https://example.com/not-a-platform" =
      { valid := false, platform := none, icon := none } ∧
    isValidUrl "https://youtu.be/dQw4w9WgXcQ" =
      { valid := true, platform := some "YouTube", icon := some "▶️" } :=
  ⟨(C3_classifier_first_match _).1 (by decide),
   (C3_classifier_first_match _).2 2 (by decide) (by decide) (by decide)⟩

/-- C10: every platform pattern is anchored to an http(s) scheme; an
input that starts with neither `http://` nor `https://` is classified
as not supported. -/
theorem C10_scheme_required (s : String)
    (h1 : startsL ("http://".data) s.data = false)
    (h2 : startsL ("https://".data) s.data = false) :
    (isValidUrl s).valid = false := by
  have hall : ∀ p ∈ SUPPORTED_PLATFORMS, reTest p.pattern s = false := by
    intro p hp
    obtain ⟨b, hb⟩ := platform_patterns_anchored p hp
    by_cases ht : reTest p.pattern s = true
    · exfalso
      have hne : matchEnds p.pattern s.data ≠ [] := by
        simpa [reTest, List.isEmpty_iff] using ht
      rw [hb] at hne
      rcases reHttp_anchored b s.data hne with hc | hc
      · rw [hc] at h1; cases h1
      · rw [hc] at h2; cases h2
    · simpa using ht
  rw [isValidUrl, findPlatform_of_all_false _ _ hall]

/-- Witness for C10: a URL with an unsupported scheme is rejected. -/
theorem C10_scheme_required_witness :
    (isValidUrl "ftp://www.youtube.com/watch?v=abc").valid = false :=
  C10_scheme_required _ (by decide) (by decide)

/-- C4: the format selector is total and pure: every
(quality, platform) pair yields a non-empty expression, and a quality
outside the enumeration `audio, 720, 1080, 4k, 2160, best` yields
exactly the expression chosen for `best`, in both expression families. -/
theorem C4_format_total (quality : String) (platform : Option String) :
    getYtDlpFormat quality platform ≠ "" ∧
    (quality ≠ "audio" → quality ≠ "720" → quality ≠ "1080" →
     quality ≠ "4k" → quality ≠ "2160" → quality ≠ "best" →
     getYtDlpFormat quality platform = getYtDlpFormat "best" platform) := by
  constructor
  · unfold getYtDlpFormat
    split_ifs <;> decide
  · intro h1 h2 h3 h4 h5 h6
    simp [getYtDlpFormat, h1, h2, h3, h4, h5, h6]

/-- Witness for C4: an unrecognized quality string gets the `best`
expression and a non-empty result. -/
theorem C4_format_total_witness :
    getYtDlpFormat "ultra" none ≠ "" ∧
    getYtDlpFormat "ultra" none = getYtDlpFormat "best" none :=
  ⟨(C4_format_total "ultra" none).1,
   (C4_format_total "ultra" none).2 (by decide) (by decide) (by decide)
     (by decide) (by decide) (by decide)⟩

theorem mem_removeForbidden (c : Char) (l : List Char)
    (h : c ∈ removeForbidden l) : isForbidden c = false ∧ c ∈ l := by
  obtain ⟨hm, hp⟩ := List.mem_filter.mp h
  exact ⟨by simpa using hp, hm⟩

theorem removeForbidden_eq_self (l : List Char)
    (h : ∀ c ∈ l, isForbidden c = false) : removeForbidden l = l :=
  List.filter_eq_self.mpr (fun c hc => by simp [h c hc])

theorem mem_collapseAux (c : Char) (l : List Char) :
    ∀ b, c ∈ collapseAux b l → c = '_' ∨ c ∈ l := by
  induction l with
  | nil => intro b h; simp [collapseAux] at h
  | cons c' cs ih =>
      intro b h
      by_cases hsp : isJsSpace c' = true
      · rw [collapseAux, if_pos hsp] at h
        cases b with
        | true =>
            rcases ih true h with h3 | h3
            · exact Or.inl h3
            · exact Or.inr (List.mem_cons_of_mem _ h3)
        | false =>
            rcases List.mem_cons.mp h with h2 | h2
            · exact Or.inl h2
            · rcases ih true h2 with h3 | h3
              · exact Or.inl h3
              · exact Or.inr (List.mem_cons_of_mem _ h3)
      · rw [collapseAux, if_neg hsp] at h
        rcases List.mem_cons.mp h with h2 | h2
        · simp [h2]
        · rcases ih false h2 with h3 | h3
          · exact Or.inl h3
          · exact Or.inr (List.mem_cons_of_mem _ h3)

theorem mem_collapseSpaces (c : Char) (l : List Char) :
    c ∈ collapseSpaces l → c = '_' ∨ c ∈ l :=
  mem_collapseAux c l false

theorem collapseAux_no_space (c : Char) (l : List Char) :
    ∀ b, c ∈ collapseAux b l → isJsSpace c = false := by
  induction l with
  | nil => intro b h; simp [collapseAux] at h
  | cons c' cs ih =>
      intro b h
      by_cases hsp : isJsSpace c' = true
      · rw [collapseAux, if_pos hsp] at h
        cases b with
        | true => exact ih true h
        | false =>
            rcases List.mem_cons.mp h with h2 | h2
            · rw [h2]; decide
            · exact ih true h2
      · rw [collapseAux, if_neg hsp] at h
        rcases List.mem_cons.mp h with h2 | h2
        · rw [h2]; simpa using hsp
        · exact ih false h2

theorem collapseSpaces_no_space (c : Char) (l : List Char) :
    c ∈ collapseSpaces l → isJsSpace c = false :=
  collapseAux_no_space c l false

theorem collapseAux_eq_self (l : List Char)
    (h : ∀ c ∈ l, isJsSpace c = false) : ∀ b, collapseAux b l = l := by
  induction l with
  | nil => intro b; rfl
  | cons c cs ih =>
      intro b
      rw [collapseAux, if_neg (by simp [h c (List.mem_cons_self c cs)]),
        ih (fun d hd => h d (List.mem_cons_of_mem _ hd))]

theorem collapseSpaces_eq_self (l : List Char)
    (h : ∀ c ∈ l, isJsSpace c = false) : collapseSpaces l = l :=
  collapseAux_eq_self l h false

theorem mem_asciiReplace (c : Char) (l : List Char)
    (h : c ∈ asciiReplace l) : c = '_' ∨ (c ∈ l ∧ c.toNat < 128) := by
  obtain ⟨a, ha, hc⟩ := List.mem_flatMap.mp h
  by_cases h1 : a.toNat < 128
  · rw [if_pos h1] at hc
    rcases List.mem_singleton.mp hc with rfl
    exact Or.inr ⟨ha, h1⟩
  · rw [if_neg h1] at hc
    by_cases h2 : a.toNat ≤ 0xFFFF <;> simp [h2] at hc <;> simp [hc]

theorem asciiReplace_eq_self (l : List Char)
    (h : ∀ c ∈ l, c.toNat < 128) : asciiReplace l = l := by
  induction l with
  | nil => rfl
  | cons c cs ih =>
      have h1 : c.toNat < 128 := h c (List.mem_cons_self c cs)
      simp only [asciiReplace, List.flatMap_cons, if_pos h1,
        List.singleton_append, List.cons.injEq, true_and]
      exact ih (fun d hd => h d (List.mem_cons_of_mem _ hd))

/-- Every character of a sanitized name is neither forbidden, nor
whitespace, nor non-ASCII. -/
theorem sanitize_mem (c : Char) (s : String)
    (h : c ∈ (sanitizeFilename s).data) :
    isForbidden c = false ∧ isJsSpace c = false ∧ c.toNat < 128 := by
  have h0 : c ∈ asciiReplace (collapseSpaces (removeForbidden s.data)) :=
    (List.take_sublist _ _).subset h
  rcases mem_asciiReplace c _ h0 with rfl | ⟨h1, hlt⟩
  · exact ⟨by decide, by decide, by decide⟩
  · refine ⟨?_, collapseSpaces_no_space c _ h1, hlt⟩
    rcases mem_collapseSpaces c _ h1 with rfl | h2
    · decide
    · exact (mem_removeForbidden c _ h2).1

theorem sanitize_len_le (s : String) :
    (sanitizeFilename s).data.length ≤ 100 := by
  show ((asciiReplace (collapseSpaces (removeForbidden s.data))).take
    100).length ≤ 100
  rw [List.length_take]
  exact Nat.min_le_left _ _

/-- C6: the sanitizer's output has length at most 100 and contains none
of the nine forbidden characters. -/
theorem C6_sanitizer_bounds (s : String) :
    (sanitizeFilename s).length ≤ 100 ∧
    (sanitizeFilename s).data.all (fun c => !isForbidden c) = true := by
  constructor
  · exact sanitize_len_le s
  · rw [List.all_eq_true]
    intro c hc
    simp [(sanitize_mem c s hc).1]

/-- C7: the sanitizer is idempotent. -/
theorem C7_sanitizer_idempotent (s : String) :
    sanitizeFilename (sanitizeFilename s) = sanitizeFilename s := by
  have hd : (sanitizeFilename (sanitizeFilename s)).data =
      (sanitizeFilename s).data := by
    show ((asciiReplace (collapseSpaces
        (removeForbidden (sanitizeFilename s).data))).take 100) =
      (sanitizeFilename s).data
    rw [removeForbidden_eq_self _ (fun c hc => (sanitize_mem c s hc).1),
        collapseSpaces_eq_self _ (fun c hc => (sanitize_mem c s hc).2.1),
        asciiReplace_eq_self _ (fun c hc => (sanitize_mem c s hc).2.2),
        List.take_of_length_le (sanitize_len_le s)]
  exact String.ext hd

/-- C1 counterexample: the sanitizer itself has no fallback; it returns
the empty string both for the empty input and for an input whose
characters are all removed. -/
theorem C1_sanitizer_empty_counterexample :
    sanitizeFilename "" = "" ∧ sanitizeFilename "???" = "" := by
  constructor <;> rfl

/-- C1 amended: the sanitizer returns the empty string for the empty
input (and for all-removed inputs); the default-base-name fallback
lives upstream, in the title computation of the download handler, which
never produces an empty title. -/
theorem C1_fallback_in_title (probeRaw : Option String) :
    sanitizeFilename "" = "" ∧ titleOf probeRaw ≠ "" := by
  refine ⟨rfl, ?_⟩
  cases probeRaw with
  | none => simp [titleOf]
  | some raw =>
      simp only [titleOf]
      by_cases h : jsTrim raw = "" <;> simp [h]

/-- Witness for C1 (amended): a failed probe still yields the default
non-empty title. -/
theorem C1_fallback_in_title_witness :
    sanitizeFilename "" = "" ∧ titleOf none ≠ "" :=
  C1_fallback_in_title none

/-- Witness for C6: bounds evaluated on a concrete title. -/
theorem C6_sanitizer_bounds_witness :
    (sanitizeFilename "a: b/c*?").length ≤ 100 ∧
    (sanitizeFilename "a: b/c*?").data.all (fun c => !isForbidden c) = true :=
  C6_sanitizer_bounds "a: b/c*?"

/-- Witness for C7: idempotence evaluated on a concrete title. -/
theorem C7_sanitizer_idempotent_witness :
    sanitizeFilename (sanitizeFilename "a  b?<c>") = sanitizeFilename "a  b?<c>" :=
  C7_sanitizer_idempotent "a  b?<c>"

/-- C5 counterexample: the empty `url` parameter is present and matches
no platform, yet the response body is the missing-parameter object,
which carries no `supported` field. -/
theorem C5_empty_url_counterexample :
    (isValidUrl "").valid = false ∧
    (streamVideo ⟨none, none, ""⟩ (some "") none).1.status = 400 ∧
    (streamVideo ⟨none, none, ""⟩ (some "") none).1.body =
      .json (.obj [("error", .str "Missing url parameter")]) ∧
    (streamVideo ⟨none, none, ""⟩ (some "") none).1.body ≠
      .json (.obj
        [("error", .str "Unsupported URL"),
         ("message",
          .str "Please provide a valid URL from supported platforms"),
         ("supported", .arr
           [.str "Twitter/X", .str "Instagram", .str "YouTube",
            .str "Reddit", .str "TikTok", .str "Facebook", .str "Vimeo",
            .str "Twitch Clips", .str "Pinterest",
            .str "Dailymotion"])]) := by
  refine ⟨by decide, rfl, rfl, ?_⟩
  intro h
  rw [show (streamVideo (⟨none, none, ""⟩ : Env) (some "") none).1.body =
    Body.json (.obj [("error", .str "Missing url parameter")]) from rfl] at h
  simp at h

/-- C5 (amended): a request without a `url` parameter — or with an
empty one, which the JS falsy check `!url` treats the same way — gets a
400 with a JSON body carrying an `error` key, and a request whose
non-empty `url` matches no platform gets a 400 whose `supported` field
lists all configured platform names in configuration order. -/
theorem C5_validation_responses (env : Env) (qualityParam : Option String) :
    ((streamVideo env none qualityParam).1.status = 400 ∧
     (streamVideo env none qualityParam).1.body =
       .json (.obj [("error", .str "Missing url parameter")])) ∧
    ((streamVideo env (some "") qualityParam).1.status = 400 ∧
     (streamVideo env (some "") qualityParam).1.body =
       .json (.obj [("error", .str "Missing url parameter")])) ∧
    (∀ url, url ≠ "" → (isValidUrl url).valid = false →
      (streamVideo env (some url) qualityParam).1.status = 400 ∧
      (streamVideo env (some url) qualityParam).1.body =
        .json (.obj
          [("error", .str "Unsupported URL"),
           ("message",
            .str "Please provide a valid URL from supported platforms"),
           ("supported", .arr
             [.str "Twitter/X", .str "Instagram", .str "YouTube",
              .str "Reddit", .str "TikTok", .str "Facebook", .str "Vimeo",
              .str "Twitch Clips", .str "Pinterest",
              .str "Dailymotion"])])) := by
  refine ⟨⟨rfl, rfl⟩, ⟨rfl, rfl⟩, ?_⟩
  intro url hne hv
  constructor
  · simp [streamVideo, hne, hv]
  · simp [streamVideo, hne, hv]
    rfl

/-- Witness for C5: the two 400 responses at concrete requests. -/
theorem C5_validation_responses_witness :
    (streamVideo ⟨none, none, ""⟩ none none).1.status = 400 ∧
    (streamVideo ⟨none, none, ""⟩
       (some "https://example.com/not-a-platform") none).1.body =
      .json (.obj
        [("error", .str "Unsupported URL"),
         ("message",
          .str "Please provide a valid URL from supported platforms"),
         ("supported", .arr
           [.str "Twitter/X", .str "Instagram", .str "YouTube",
            .str "Reddit", .str "TikTok", .str "Facebook", .str "Vimeo",
            .str "Twitch Clips", .str "Pinterest",
            .str "Dailymotion"])]) :=
  ⟨(C5_validation_responses ⟨none, none, ""⟩ none).1.1,
   ((C5_validation_responses ⟨none, none, ""⟩ none).2.2
     "https://example.com/not-a-platform" (by decide) (by decide)).2⟩

/-- C9: a 400 response is produced without spawning any external
process: the spawn trace of a rejected request is empty. -/
theorem C9_validation_no_spawn (env : Env)
    (urlParam qualityParam : Option String)
    (h : (streamVideo env urlParam qualityParam).1.status = 400) :
    (streamVideo env urlParam qualityParam).2 = [] := by
  cases urlParam with
  | none => rfl
  | some url =>
      by_cases hurl : url = ""
      · simp [streamVideo, hurl]
      · by_cases hv : (isValidUrl url).valid = false
        · simp [streamVideo, hurl, hv]
        · exfalso
          simp only [streamVideo] at h
          rw [if_neg hurl, if_neg hv] at h
          split at h
          · simp [resp500] at h
          · split at h
            · simp [resp500] at h
            · split at h
              · simp [resp500] at h
              · simp at h

/-- Witness for C9: the missing-url request yields a 400 and an empty
spawn trace. -/
theorem C9_validation_no_spawn_witness :
    (streamVideo ⟨none, none, ""⟩ none none).2 = [] :=
  C9_validation_no_spawn ⟨none, none, ""⟩ none none rfl

/-- C8: the legacy `/twitter/stream` route behaves exactly as
`/api/download`: both invoke the same pipeline on the same request. -/
theorem C8_legacy_route_alias (env : Env)
    (urlParam qualityParam : Option String) :
    fetchRoute env "/twitter/stream" urlParam qualityParam =
      fetchRoute env "/api/download" urlParam qualityParam := by
  rw [fetchRoute, fetchRoute]
  rw [if_neg (by decide), if_neg (by decide), if_neg (by decide),
      if_pos rfl, if_neg (by decide), if_neg (by decide), if_pos rfl]

/-- Witness for C8: the two routes agree on a concrete request. -/
theorem C8_legacy_route_alias_witness :
    fetchRoute ⟨none, none, ""⟩ "/twitter/stream"
      (some "https://vimeo.com/123") none =
    fetchRoute ⟨none, none, ""⟩ "/api/download"
      (some "https://vimeo.com/123") none :=
  C8_legacy_route_alias ⟨none, none, ""⟩ (some "https://vimeo.com/123") none

/-- C2: in every reachable lifecycle state in which the abort handler
has run, both child processes have been killed. -/
theorem C2_abort_kills_both (s : LifeState) (h : LifeReachable s) :
    s.abortHandled = true → s.ytdlpKilled = true ∧ s.ffmpegKilled = true := by
  induction h with
  | refl => intro ha; simp [initLife] at ha
  | tail hab hbc ih =>
      intro ha
      cases hbc with
      | spawnRegister h1 => simpa using ih (by simpa using ha)
      | relayChunk h1 => exact ih ha
      | relayEnd h1 => simpa using ih (by simpa using ha)
      | relayFail h1 => simp
      | abortEvt h1 => simp

/-- Witness for C2: the state reached by spawning and then receiving
the abort event has both processes killed. -/
theorem C2_abort_kills_both_witness :
    ({ procsSpawned := true, listenerOn := true, abortHandled := true,
       relayDone := false, ytdlpKilled := true, ffmpegKilled := true } :
      LifeState).ytdlpKilled = true ∧
    ({ procsSpawned := true, listenerOn := true, abortHandled := true,
       relayDone := false, ytdlpKilled := true, ffmpegKilled := true } :
      LifeState).ffmpegKilled = true :=
  C2_abort_kills_both
    { procsSpawned := true, listenerOn := true, abortHandled := true,
      relayDone := false, ytdlpKilled := true, ffmpegKilled := true }
    (Relation.ReflTransGen.tail
      (Relation.ReflTransGen.tail Relation.ReflTransGen.refl
        (LifeStep.spawnRegister initLife rfl))
      (LifeStep.abortEvt
        { procsSpawned := true, listenerOn := true, abortHandled := false,
          relayDone := false, ytdlpKilled := false, ffmpegKilled := false }
        rfl))
    rfl

end Social
